import Mathlib

/-!
Verification of the sales closure reconciliation subsystem of the
sushi-be repository (FastAPI backend).

Shallow embedding conventions:
* Monetary amounts are modelled as integer numbers of cents (`Int`).
  The Pydantic schemas constrain every monetary field with
  `decimal_places=2`, so every accepted amount is a whole number of
  cents, and Python `Decimal` addition/subtraction on such values is
  exact; integer cents are therefore a faithful model of the
  `Numeric(12,2)` arithmetic in `Sales.calculate_totals`.
  The two-decimal tolerance `Decimal("0.01")` becomes `1` (one cent).
* `avg_sale` is the one divided quantity; it is modelled as `Rat`
  (exact quotient of cents by the payment count).
* Calendar dates are modelled as `Int` day numbers (only equality and
  order are used by the code under study).
* UUIDs are modelled as `Nat`.
* The database session is modelled as an explicit state
  (`DBState`); each CRUD function returns the new state together with
  an `Except`-style outcome, mirroring the control flow of
  `backend/fastapi/crud/sales.py` (all checks are performed before the
  state is changed, and an exception leaves the state untouched).
-/

/-- Review states, from `backend/fastapi/schemas/expense.py`
(`class ReviewState(str, Enum)`) and the migration
`migrations/add_review_fields.py` (VARCHAR default `'pending'`). -/
inductive ReviewState where
  | pending
  | approved
  | rejected
deriving Repr, DecidableEq

/-- The persisted sales row, from `backend/fastapi/models/sales.py`
(class `Sales`), plus the `review_state` / `review_observations`
columns added by `migrations/add_review_fields.py`.
Monetary columns are in cents; `avg_sale` is an exact rational. -/
structure Sales where
  id : Nat
  worker_id : Nat
  branch_id : Nat
  closure_date : Int
  closure_number : Int
  payments_nbr : Int
  sales_total : Int
  card_itpv : Int
  card_refund : Int
  card_kiwi : Int
  transfer_amt : Int
  card_total : Int
  cash_amt : Int
  cash_refund : Int
  cash_total : Int
  discrepancy : Int
  avg_sale : Rat
  kiwi_fee_total : Int
  card_kiwi_minus_fee : Int
  revenue_total : Int
  notes : Option String
  review_state : ReviewState
  review_observations : Option String
deriving Repr, DecidableEq

/-- `Sales.calculate_totals`, translated line by line from
`backend/fastapi/models/sales.py` lines 278-303.  Note that the card
total there is `card_itpv + card_kiwi + transfer_amt - card_refund`,
i.e. it INCLUDES `card_itpv`. -/
def Sales.calculate_totals (s : Sales) : Sales :=
  let card_total := s.card_itpv + s.card_kiwi + s.transfer_amt - s.card_refund
  let cash_total := s.cash_amt - s.cash_refund
  let payment_total := card_total + cash_total
  let discrepancy := payment_total - s.sales_total
  let avg_sale : Rat :=
    if s.payments_nbr > 0 then (s.sales_total : Rat) / (s.payments_nbr : Rat) else 0
  let card_kiwi_minus_fee := s.card_kiwi - s.kiwi_fee_total
  let revenue_total := s.sales_total - s.kiwi_fee_total
  { s with
    card_total := card_total
    cash_total := cash_total
    discrepancy := discrepancy
    avg_sale := avg_sale
    card_kiwi_minus_fee := card_kiwi_minus_fee
    revenue_total := revenue_total }

/-- `Sales.has_discrepancy` property,
`backend/fastapi/models/sales.py` lines 305-308:
`abs(self.discrepancy) > Decimal("0.01")`. -/
def Sales.has_discrepancy (s : Sales) : Bool :=
  |s.discrepancy| > 1

/-- The corrected per-row card total computed by
`scripts/fix_card_totals_data.py` line 86
(`new_card_total`, "Correct formula: excludes card_itpv"). -/
def fixScript_new_card_total (s : Sales) : Int :=
  s.card_kiwi + s.transfer_amt - s.card_refund

/-- The corrected per-row discrepancy computed by
`scripts/fix_card_totals_data.py` lines 89-91. -/
def fixScript_new_discrepancy (s : Sales) : Int :=
  fixScript_new_card_total s + (s.cash_amt - s.cash_refund) - s.sales_total

/-- Creation payload, from `backend/fastapi/schemas/sales.py`
(`SalesCreate`, i.e. `SalesBase` plus `worker_id` / `branch_id`). -/
structure SalesCreate where
  closure_date : Int
  closure_number : Int
  worker_id : Nat
  branch_id : Nat
  payments_nbr : Int
  sales_total : Int
  card_itpv : Int
  card_refund : Int
  card_kiwi : Int
  transfer_amt : Int
  cash_amt : Int
  cash_refund : Int
  kiwi_fee_total : Int
  notes : Option String
deriving Repr, DecidableEq

/-- Update payload, from `backend/fastapi/schemas/sales.py`
(`SalesUpdate`); every field is optional, `none` meaning "not
supplied" (pydantic `exclude_unset`). -/
structure SalesUpdate where
  closure_date : Option Int := none
  closure_number : Option Int := none
  worker_id : Option Nat := none
  branch_id : Option Nat := none
  payments_nbr : Option Int := none
  sales_total : Option Int := none
  card_itpv : Option Int := none
  card_refund : Option Int := none
  card_kiwi : Option Int := none
  transfer_amt : Option Int := none
  cash_amt : Option Int := none
  cash_refund : Option Int := none
  kiwi_fee_total : Option Int := none
  notes : Option String := none
deriving Repr, DecidableEq

/-- Field-level validation of `SalesBase`
(`backend/fastapi/schemas/sales.py` lines 15-104): `closure_number ≥ 1`,
`payments_nbr ≥ 0`, and `ge=0` on `card_itpv`, `card_refund`,
`card_kiwi`, `transfer_amt`, `cash_amt`, `cash_refund`,
`kiwi_fee_total`.  `sales_total` carries NO `ge=0` bound there. -/
def salesBaseValid (d : SalesCreate) : Bool :=
  d.closure_number ≥ 1 &&
  d.payments_nbr ≥ 0 &&
  d.card_itpv ≥ 0 &&
  d.card_refund ≥ 0 &&
  d.card_kiwi ≥ 0 &&
  d.transfer_amt ≥ 0 &&
  d.cash_amt ≥ 0 &&
  d.cash_refund ≥ 0 &&
  d.kiwi_fee_total ≥ 0

/-- Field-level validation of `SalesUpdate`
(`backend/fastapi/schemas/sales.py` lines 142-238); constraints apply
only to supplied fields, and again `sales_total` has no `ge=0`. -/
def salesUpdateValid (u : SalesUpdate) : Bool :=
  (u.closure_number.all (· ≥ 1)) &&
  (u.payments_nbr.all (· ≥ 0)) &&
  (u.card_itpv.all (· ≥ 0)) &&
  (u.card_refund.all (· ≥ 0)) &&
  (u.card_kiwi.all (· ≥ 0)) &&
  (u.transfer_amt.all (· ≥ 0)) &&
  (u.cash_amt.all (· ≥ 0)) &&
  (u.cash_refund.all (· ≥ 0)) &&
  (u.kiwi_fee_total.all (· ≥ 0))

/-- The end-to-end scenario of spec §8 as a raw record (amounts in
cents, derived fields still zero): sales_total=1250.50,
card_itpv=800.00, card_refund=25.00, card_kiwi=300.00,
transfer_amt=50.00, cash_amt=500.00, cash_refund=24.50,
kiwi_fee_total=12.50, payments_nbr=25. -/
def specScenario : Sales :=
  { id := 1
    worker_id := 1
    branch_id := 1
    closure_date := 0
    closure_number := 1
    payments_nbr := 25
    sales_total := 125050
    card_itpv := 80000
    card_refund := 2500
    card_kiwi := 30000
    transfer_amt := 5000
    card_total := 0
    cash_amt := 50000
    cash_refund := 2450
    cash_total := 0
    discrepancy := 0
    avg_sale := 0
    kiwi_fee_total := 1250
    card_kiwi_minus_fee := 0
    revenue_total := 0
    notes := none
    review_state := .pending
    review_observations := none }

/-- Error outcomes raised by the CRUD layer
(`backend/fastapi/crud/sales.py`): 404 for a missing worker, branch or
record, 409 for a duplicate closure triple; `validation` stands for the
Pydantic 422 rejection at the request boundary. -/
inductive CrudError where
  | workerNotFound
  | branchNotFound
  | recordNotFound
  | conflict
  | validation
deriving Repr, DecidableEq

/-- The persisted state visible to the sales CRUD: registered users
(id, username), branches (id, name), and the sales table. -/
structure DBState where
  users : List (Nat × String)
  branches : List (Nat × String)
  sales : List Sales
deriving Repr, DecidableEq

/-- The (closure_date, closure_number, branch_id) triple of a stored
record matches that of a creation payload (the duplicate check of
`create_sales`, `crud/sales.py` lines 52-63). -/
def tripleMatchesCreate (s : Sales) (d : SalesCreate) : Bool :=
  s.closure_date == d.closure_date &&
  s.closure_number == d.closure_number &&
  s.branch_id == d.branch_id

/-- Two stored records share the (closure_date, closure_number,
branch_id) triple. -/
def sameTriple (a b : Sales) : Prop :=
  a.closure_date = b.closure_date ∧
  a.closure_number = b.closure_number ∧
  a.branch_id = b.branch_id

instance : DecidablePred fun p : Sales × Sales => sameTriple p.1 p.2 :=
  fun _ => by unfold sameTriple; infer_instance

instance (a b : Sales) : Decidable (sameTriple a b) := by
  unfold sameTriple; infer_instance

/-- The new row built by `create_sales` (`crud/sales.py` lines 71-87)
before `calculate_totals` runs: raw fields from the payload, derived
fields at their column defaults, review fields at the migration
defaults (`'pending'`, NULL). -/
def mkSales (newId : Nat) (d : SalesCreate) : Sales :=
  { id := newId
    worker_id := d.worker_id
    branch_id := d.branch_id
    closure_date := d.closure_date
    closure_number := d.closure_number
    payments_nbr := d.payments_nbr
    sales_total := d.sales_total
    card_itpv := d.card_itpv
    card_refund := d.card_refund
    card_kiwi := d.card_kiwi
    transfer_amt := d.transfer_amt
    card_total := 0
    cash_amt := d.cash_amt
    cash_refund := d.cash_refund
    cash_total := 0
    discrepancy := 0
    avg_sale := 0
    kiwi_fee_total := d.kiwi_fee_total
    card_kiwi_minus_fee := 0
    revenue_total := 0
    notes := d.notes
    review_state := .pending
    review_observations := none }

/-- `create_sales` (`crud/sales.py` lines 22-96): validate worker,
validate branch, reject a duplicate (closure_date, closure_number,
branch_id) triple with 409, then insert the record with
`calculate_totals` applied.  The returned state is unchanged on every
error path, mirroring that the code raises before `db.add`. -/
def create_sales (db : DBState) (d : SalesCreate) (newId : Nat) :
    DBState × Except CrudError Sales :=
  if ¬ db.users.any (fun p => p.1 == d.worker_id) then
    (db, .error .workerNotFound)
  else if ¬ db.branches.any (fun p => p.1 == d.branch_id) then
    (db, .error .branchNotFound)
  else if db.sales.any (fun s => tripleMatchesCreate s d) then
    (db, .error .conflict)
  else
    let r := (mkSales newId d).calculate_totals
    ({ db with sales := db.sales ++ [r] }, .ok r)

/-- Application of the supplied update fields to a stored record
(`crud/sales.py` lines 301-304: `model_dump(exclude_unset=True)`
followed by `setattr`). -/
def applyUpdate (s : Sales) (u : SalesUpdate) : Sales :=
  { s with
    closure_date := u.closure_date.getD s.closure_date
    closure_number := u.closure_number.getD s.closure_number
    worker_id := u.worker_id.getD s.worker_id
    branch_id := u.branch_id.getD s.branch_id
    payments_nbr := u.payments_nbr.getD s.payments_nbr
    sales_total := u.sales_total.getD s.sales_total
    card_itpv := u.card_itpv.getD s.card_itpv
    card_refund := u.card_refund.getD s.card_refund
    card_kiwi := u.card_kiwi.getD s.card_kiwi
    transfer_amt := u.transfer_amt.getD s.transfer_amt
    cash_amt := u.cash_amt.getD s.cash_amt
    cash_refund := u.cash_refund.getD s.cash_refund
    kiwi_fee_total := u.kiwi_fee_total.getD s.kiwi_fee_total
    notes := match u.notes with | some n => some n | none => s.notes }

/-- `update_sales` (`crud/sales.py` lines 238-312): fetch the record
(None → 404 at the endpoint, modelled as `recordNotFound`), validate a
supplied worker and branch, re-run the duplicate-triple check when any
of closure_number / closure_date / branch_id is supplied (excluding
the record itself), then apply the fields and recompute the derived
values.  Every error path leaves the state unchanged, mirroring that
the code raises before the `setattr` loop. -/
def update_sales (db : DBState) (salesId : Nat) (u : SalesUpdate) :
    DBState × Except CrudError Sales :=
  match db.sales.find? (fun s => s.id == salesId) with
  | none => (db, .error .recordNotFound)
  | some s0 =>
    if ¬ (u.worker_id.all fun w => db.users.any (fun p => p.1 == w)) then
      (db, .error .workerNotFound)
    else if ¬ (u.branch_id.all fun b => db.branches.any (fun p => p.1 == b)) then
      (db, .error .branchNotFound)
    else if u.closure_number.isSome || u.closure_date.isSome || u.branch_id.isSome then
      let newDate := u.closure_date.getD s0.closure_date
      let newNumber := u.closure_number.getD s0.closure_number
      let newBranch := u.branch_id.getD s0.branch_id
      if db.sales.any (fun s =>
          s.closure_date == newDate && s.closure_number == newNumber &&
          s.branch_id == newBranch && s.id != salesId) then
        (db, .error .conflict)
      else
        let r := (applyUpdate s0 u).calculate_totals
        ({ db with sales := db.sales.map (fun s => if s.id == salesId then r else s) }, .ok r)
    else
      let r := (applyUpdate s0 u).calculate_totals
      ({ db with sales := db.sales.map (fun s => if s.id == salesId then r else s) }, .ok r)

/-- `delete_sales` (`crud/sales.py` lines 315-333). -/
def delete_sales (db : DBState) (salesId : Nat) : DBState × Bool :=
  match db.sales.find? (fun s => s.id == salesId) with
  | none => (db, false)
  | some _ => ({ db with sales := db.sales.filter (fun s => s.id != salesId) }, true)

/-- Modelled from the spec: `update_sales_review_status` is imported
by `api/v1/endpoints/sales.py` from `crud/sales.py` but is not present
in the source tree; spec §4.3 describes the transition as "an explicit
administrative action supplying the target state and optional
observation text", and the repository's expense analogue
(`crud/expense.py`, `update_expense_review_status`) fetches the
record, assigns the supplied state, and assigns the observations only
when they are supplied. -/
def update_sales_review_status (db : DBState) (salesId : Nat)
    (st : ReviewState) (obs : Option String) : DBState × Except CrudError Sales :=
  match db.sales.find? (fun s => s.id == salesId) with
  | none => (db, .error .recordNotFound)
  | some s0 =>
    let r := { s0 with
      review_state := st
      review_observations := match obs with | some o => some o | none => s0.review_observations }
    ({ db with sales := db.sales.map (fun s => if s.id == salesId then r else s) }, .ok r)

/-- The create pipeline as seen by a client: Pydantic field validation
(422) happens when the request body is parsed, before the CRUD layer
runs (`api/v1/endpoints/sales.py` lines 36-68). -/
def submitCreate (db : DBState) (d : SalesCreate) (newId : Nat) :
    DBState × Except CrudError Sales :=
  if ¬ salesBaseValid d then (db, .error .validation)
  else create_sales db d newId

/-- The update pipeline as seen by a client: Pydantic field validation
first, then `update_sales`. -/
def submitUpdate (db : DBState) (salesId : Nat) (u : SalesUpdate) :
    DBState × Except CrudError Sales :=
  if ¬ salesUpdateValid u then (db, .error .validation)
  else update_sales db salesId u

/-- The strict "comes before" comparator encoded by the ORDER BY
branches of `get_sales_records` (`crud/sales.py` lines 175-189):
`date_desc` sorts by closure_date descending then closure_number
descending; `date_asc` by both ascending; `sales_desc` / `sales_asc`
by sales_total only; `discrepancy_desc` by `abs(discrepancy)`
descending only; anything else falls back to `date_desc`. -/
def sales_before (order_by : String) (a b : Sales) : Bool :=
  if order_by == "date_desc" then
    b.closure_date < a.closure_date ||
      (a.closure_date == b.closure_date && b.closure_number < a.closure_number)
  else if order_by == "date_asc" then
    a.closure_date < b.closure_date ||
      (a.closure_date == b.closure_date && a.closure_number < b.closure_number)
  else if order_by == "sales_desc" then
    b.sales_total < a.sales_total
  else if order_by == "sales_asc" then
    a.sales_total < b.sales_total
  else if order_by == "discrepancy_desc" then
    |b.discrepancy| < |a.discrepancy|
  else
    b.closure_date < a.closure_date ||
      (a.closure_date == b.closure_date && b.closure_number < a.closure_number)

/-- Stable insertion for the ORDER BY model: the new element is placed
before the first element that does not strictly precede it, so
elements tying on all sort keys keep their relative input order (the
stable behaviour of a multi-key ORDER BY on otherwise-equal keys is
unspecified in SQL; stability here only fixes the model). -/
def insertOrdered (before : Sales → Sales → Bool) (x : Sales) :
    List Sales → List Sales
  | [] => [x]
  | y :: ys => if before y x then y :: insertOrdered before x ys else x :: y :: ys

/-- Stable sort by the given strict comparator. -/
def sortSalesBy (before : Sales → Sales → Bool) : List Sales → List Sales
  | [] => []
  | x :: xs => insertOrdered before x (sortSalesBy before xs)

/-- Filters of `get_sales_records` (`crud/sales.py` lines 153-173). -/
def salesRecordFilter (worker_id branch_id : Option Nat)
    (start_date end_date : Option Int) (closure_number : Option Int)
    (has_discrepancy : Option Bool) (s : Sales) : Bool :=
  (worker_id.all fun w => s.worker_id == w) &&
  (branch_id.all fun b => s.branch_id == b) &&
  (start_date.all fun d => d ≤ s.closure_date) &&
  (end_date.all fun d => s.closure_date ≤ d) &&
  (closure_number.all fun n => s.closure_number == n) &&
  (match has_discrepancy with
   | some true => |s.discrepancy| > 1
   | some false => |s.discrepancy| ≤ 1
   | none => true)

/-- `get_sales_records` (`crud/sales.py` lines 118-189): filter,
order, then `offset(skip).limit(limit)`. -/
def get_sales_records (db : DBState) (skip limit : Nat)
    (worker_id branch_id : Option Nat) (start_date end_date : Option Int)
    (closure_number : Option Int) (has_discrepancy : Option Bool)
    (order_by : String) : List Sales :=
  ((sortSalesBy (sales_before order_by)
      (db.sales.filter
        (salesRecordFilter worker_id branch_id start_date end_date
          closure_number has_discrepancy))).drop skip).take limit

/-- Records of the period selected by `get_sales_period_summary` /
`get_sales_period_report` (`crud/sales.py` lines 356-368 and
432-440): closure_date within [start_date, end_date], optionally
restricted to one branch and/or one worker. -/
def periodRecords (db : DBState) (start_date end_date : Int)
    (branch_id worker_id : Option Nat) : List Sales :=
  db.sales.filter (fun s =>
    start_date ≤ s.closure_date && s.closure_date ≤ end_date &&
    (branch_id.all fun b => s.branch_id == b) &&
    (worker_id.all fun w => s.worker_id == w))

/-- The summary produced by `get_sales_period_summary`
(`crud/sales.py` lines 336-407). -/
structure PeriodSummary where
  total_sales : Int
  total_payments : Int
  total_discrepancy : Int
  average_sale : Rat
  total_revenue : Int
  total_fees : Int
  card_percentage : Rat
  cash_percentage : Rat
deriving Repr, DecidableEq

/-- `get_sales_period_summary` (`crud/sales.py` lines 336-407):
aggregated sums over the period's records, the average sale guarded by
`total_payments > 0`, and the card/cash split of
`card_total + cash_total` guarded by the total being positive. -/
def get_sales_period_summary (db : DBState) (start_date end_date : Int)
    (branch_id worker_id : Option Nat) : PeriodSummary :=
  let l := periodRecords db start_date end_date branch_id worker_id
  let total_sales := (l.map Sales.sales_total).sum
  let total_payments := (l.map Sales.payments_nbr).sum
  let total_card := (l.map Sales.card_total).sum
  let total_cash := (l.map Sales.cash_total).sum
  let total_payments_amt := total_card + total_cash
  { total_sales := total_sales
    total_payments := total_payments
    total_discrepancy := (l.map Sales.discrepancy).sum
    average_sale :=
      if total_payments > 0 then (total_sales : Rat) / (total_payments : Rat) else 0
    total_revenue := (l.map Sales.revenue_total).sum
    total_fees := (l.map Sales.kiwi_fee_total).sum
    card_percentage :=
      if total_payments_amt > 0 then (total_card : Rat) / (total_payments_amt : Rat) * 100 else 0
    cash_percentage :=
      if total_payments_amt > 0 then (total_cash : Rat) / (total_payments_amt : Rat) * 100 else 0 }

/-- The branch name a sales record joins to (`base_query.join(Branch)`
in `get_sales_period_report`); `none` when the branch row does not
exist, in which case the inner join drops the record. -/
def resolvedBranchName (db : DBState) (s : Sales) : Option String :=
  (db.branches.find? (fun p => p.1 == s.branch_id)).map (·.2)

/-- The username a sales record joins to (`base_query.join(User)`). -/
def resolvedWorkerName (db : DBState) (s : Sales) : Option String :=
  (db.users.find? (fun p => p.1 == s.worker_id)).map (·.2)

/-- Sum of `sales_total` over the records of `l` that join to the
given name under `f` — one GROUP BY bucket of the report queries. -/
def groupTotal (f : Sales → Option String) (l : List Sales) (n : String) : Int :=
  ((l.filter (fun s => f s == some n)).map Sales.sales_total).sum

/-- One grouped breakdown of `get_sales_period_report`
(`crud/sales.py` lines 442-471): group the joined rows by name and sum
`sales_total` within each group. -/
def groupedTotals (f : Sales → Option String) (l : List Sales) :
    List (String × Int) :=
  (l.filterMap f).dedup.map (fun n => (n, groupTotal f l n))

/-- The report produced by `get_sales_period_report`
(`crud/sales.py` lines 410-498).  `by_branch` is only populated when
no branch filter is given, exactly as in the code. -/
structure PeriodReport where
  start_date : Int
  end_date : Int
  summary : PeriodSummary
  by_branch : List (String × Int)
  by_worker : List (String × Int)
  daily_totals : List (Int × Int)
deriving Repr, DecidableEq

/-- `get_sales_period_report` (`crud/sales.py` lines 410-498). -/
def get_sales_period_report (db : DBState) (start_date end_date : Int)
    (branch_id : Option Nat) : PeriodReport :=
  let l := periodRecords db start_date end_date branch_id none
  { start_date := start_date
    end_date := end_date
    summary := get_sales_period_summary db start_date end_date branch_id none
    by_branch :=
      match branch_id with
      | some _ => []
      | none => groupedTotals (resolvedBranchName db) l
    by_worker := groupedTotals (resolvedWorkerName db) l
    daily_totals :=
      ((l.map Sales.closure_date).dedup.mergeSort (· ≤ ·)).map
        (fun d => (d, ((l.filter (fun s => s.closure_date == d)).map Sales.sales_total).sum)) }

/-- The record filter of `get_discrepancy_report` (`crud/sales.py`
lines 501-534): `abs(discrepancy) > 0.01` always, then the optional
date / branch / minimum-magnitude filters. -/
def discrepancyReportFilter (start_date end_date : Option Int)
    (branch_id : Option Nat) (min_discrepancy : Option Int) (s : Sales) : Bool :=
  |s.discrepancy| > 1 &&
  (start_date.all fun d => d ≤ s.closure_date) &&
  (end_date.all fun d => s.closure_date ≤ d) &&
  (branch_id.all fun b => s.branch_id == b) &&
  (min_discrepancy.all fun m => |s.discrepancy| ≥ m)

/-- The set of records analysed by `get_discrepancy_report` (the query
feeding both the statistics and `discrepancy_records`). -/
def get_discrepancy_report_records (db : DBState)
    (start_date end_date : Option Int) (branch_id : Option Nat)
    (min_discrepancy : Option Int) : List Sales :=
  db.sales.filter (discrepancyReportFilter start_date end_date branch_id min_discrepancy)

/-- The store-level invariant maintained by the duplicate checks: no
two persisted records share the (closure_date, closure_number,
branch_id) triple, and record ids are distinct (uuid primary keys). -/
def StateInv (l : List Sales) : Prop :=
  l.Pairwise (fun a b => ¬ sameTriple a b ∧ a.id ≠ b.id)

/-- An all-zero raw record used to build concrete instances. -/
def baseRec : Sales :=
  { id := 0
    worker_id := 1
    branch_id := 1
    closure_date := 0
    closure_number := 1
    payments_nbr := 0
    sales_total := 0
    card_itpv := 0
    card_refund := 0
    card_kiwi := 0
    transfer_amt := 0
    card_total := 0
    cash_amt := 0
    cash_refund := 0
    cash_total := 0
    discrepancy := 0
    avg_sale := 0
    kiwi_fee_total := 0
    card_kiwi_minus_fee := 0
    revenue_total := 0
    notes := none
    review_state := .pending
    review_observations := none }

/-- Spec §8 scenario with no payments (exercises the guarded branch of
the average-sale computation). -/
def specScenarioZeroPay : Sales :=
  { specScenario with payments_nbr := 0 }

/-- Two records tying on closure_date (and on sales_total and
discrepancy), with closure_number 1 and 2. -/
def recTieA : Sales := { baseRec with id := 10, closure_number := 1 }

/-- See `recTieA`. -/
def recTieB : Sales := { baseRec with id := 11, closure_number := 2 }

/-- A store holding the two tying records, `recTieB` first. -/
def dbTie : DBState :=
  { users := [(1, "w1")], branches := [(1, "b1")], sales := [recTieB, recTieA] }

/-- A record whose discrepancy is exactly 0.01 (one cent). -/
def recDisc1 : Sales := { baseRec with id := 20, discrepancy := 1 }

/-- A record whose discrepancy is exactly 0.02 (two cents), with a
distinct closure number. -/
def recDisc2 : Sales := { baseRec with id := 21, closure_number := 2, discrepancy := 2 }

/-- A store holding the two boundary records. -/
def dbDisc : DBState :=
  { users := [(1, "w1")], branches := [(1, "b1")], sales := [recDisc1, recDisc2] }

/-- A store with one worker, one branch and no sales. -/
def dbW : DBState :=
  { users := [(1, "w1")], branches := [(1, "b1")], sales := [] }

/-- An empty store. -/
def dbEmpty : DBState := { users := [], branches := [], sales := [] }

/-- A creation payload with a negative sales_total and every other
field valid. -/
def negCreate : SalesCreate :=
  { closure_date := 0
    closure_number := 1
    worker_id := 1
    branch_id := 1
    payments_nbr := 0
    sales_total := -100
    card_itpv := 0
    card_refund := 0
    card_kiwi := 0
    transfer_amt := 0
    cash_amt := 0
    cash_refund := 0
    kiwi_fee_total := 0
    notes := none }

/-- A creation payload with a negative card refund. -/
def negRefundCreate : SalesCreate := { negCreate with sales_total := 0, card_refund := -1 }

/-- A creation payload whose triple matches the record stored in
`dbDup`. -/
def dupCreate : SalesCreate := { negCreate with sales_total := 5000 }

/-- A store already holding a record with triple (0, 1, 1). -/
def dbDup : DBState :=
  { users := [(1, "w1")], branches := [(1, "b1")], sales := [baseRec] }

/-- A store with two branches and three sales records for the period
report: branch 1 holds 1.00 and 2.00, branch 2 holds 3.00. -/
def dbC8 : DBState :=
  { users := [(1, "w1")], branches := [(1, "Downtown"), (2, "Mall")]
    sales :=
      [ { baseRec with id := 30, closure_date := 1, sales_total := 100 },
        { baseRec with id := 31, closure_date := 2, closure_number := 2, sales_total := 200 },
        { baseRec with id := 32, closure_date := 3, branch_id := 2, sales_total := 300 } ] }

/-- Spec §8 scenario with garbage pre-set derived fields (the
computation must ignore them). -/
def specScenarioJunkDerived : Sales :=
  { specScenario with
    card_total := 999
    cash_total := -5
    discrepancy := 123
    avg_sale := 7
    card_kiwi_minus_fee := -1
    revenue_total := 42 }

/-- C1: evaluated at the raw inputs of the spec's §8 scenario,
`Sales.calculate_totals` sets `card_total` to 1125.00 — it INCLUDES
`card_itpv` — and `discrepancy` to 350.00, whereas the claim (and the
repository's own correction script `scripts/fix_card_totals_data.py`)
requires 325.00 and -450.00: `calculate_totals` disagrees with the
corrected formula the script documents as the right one. -/
theorem C1_calculate_totals_includes_card_itpv :
    (specScenario.calculate_totals).card_total = 112500 ∧
    (specScenario.calculate_totals).discrepancy = 35000 ∧
    fixScript_new_card_total specScenario = 32500 ∧
    fixScript_new_discrepancy specScenario = -45000 ∧
    (specScenario.calculate_totals).card_total ≠ fixScript_new_card_total specScenario ∧
    (specScenario.calculate_totals).discrepancy ≠ fixScript_new_discrepancy specScenario := by
  decide

/-- C5: the average-sale computation of `Sales.calculate_totals` is
total and guarded: with a positive payment count it is
`sales_total / payments_nbr`, and with a zero payment count it is `0`
(the division branch is never reached), so no computation error can
occur. -/
theorem C5_avg_sale_total_and_guarded (s : Sales) :
    (s.payments_nbr > 0 →
      (s.calculate_totals).avg_sale = (s.sales_total : Rat) / (s.payments_nbr : Rat)) ∧
    (s.payments_nbr = 0 → (s.calculate_totals).avg_sale = 0) := by
  constructor
  · intro h
    simp [Sales.calculate_totals, h]
  · intro h
    simp [Sales.calculate_totals, h]

/-- Witness for C5 at the spec §8 scenario (25 payments) and at its
zero-payment variant. -/
theorem C5_avg_sale_total_and_guarded_witness :
    specScenario.payments_nbr > 0 ∧
    (specScenario.calculate_totals).avg_sale
      = (specScenario.sales_total : Rat) / (specScenario.payments_nbr : Rat) ∧
    specScenarioZeroPay.payments_nbr = 0 ∧
    (specScenarioZeroPay.calculate_totals).avg_sale = 0 :=
  ⟨by decide, (C5_avg_sale_total_and_guarded specScenario).1 (by decide),
   rfl, (C5_avg_sale_total_and_guarded specScenarioZeroPay).2 rfl⟩

/-- C6: a record is classified as discrepant exactly when
`abs(discrepancy)` exceeds one cent (0.01), both by
`Sales.has_discrepancy` and by the base filter of
`get_discrepancy_report`; a discrepancy of exactly 0.01 is not
flagged, one of 0.02 is. -/
theorem C6_discrepancy_classification :
    (∀ s : Sales, s.has_discrepancy = decide (|s.discrepancy| > 1)) ∧
    (∀ (db : DBState) (s : Sales),
      s ∈ get_discrepancy_report_records db none none none none ↔
        s ∈ db.sales ∧ |s.discrepancy| > 1) ∧
    recDisc1.discrepancy = 1 ∧
    recDisc1.has_discrepancy = false ∧
    recDisc2.discrepancy = 2 ∧
    recDisc2.has_discrepancy = true ∧
    get_discrepancy_report_records dbDisc none none none none = [recDisc2] := by
  refine ⟨fun s => rfl, fun db s => ?_, by decide, by decide, by decide, by decide, by decide⟩
  simp [get_discrepancy_report_records, discrepancyReportFilter, List.mem_filter]

/-- Witness for C6: the 0.02 record is reported, applying the
membership characterisation at a concrete store. -/
theorem C6_discrepancy_classification_witness :
    recDisc2 ∈ get_discrepancy_report_records dbDisc none none none none :=
  (C6_discrepancy_classification.2.1 dbDisc recDisc2).mpr ⟨by decide, by decide⟩

/-- C9: recomputing the derived fields twice equals computing them
once, and the six derived outputs depend only on the nine raw inputs
(records agreeing on the raw fields get identical derived fields). -/
theorem C9_recompute_idempotent (s t : Sales) :
    s.calculate_totals.calculate_totals = s.calculate_totals ∧
    (s.payments_nbr = t.payments_nbr → s.sales_total = t.sales_total →
     s.card_itpv = t.card_itpv → s.card_refund = t.card_refund →
     s.card_kiwi = t.card_kiwi → s.transfer_amt = t.transfer_amt →
     s.cash_amt = t.cash_amt → s.cash_refund = t.cash_refund →
     s.kiwi_fee_total = t.kiwi_fee_total →
      (s.calculate_totals).card_total = (t.calculate_totals).card_total ∧
      (s.calculate_totals).cash_total = (t.calculate_totals).cash_total ∧
      (s.calculate_totals).discrepancy = (t.calculate_totals).discrepancy ∧
      (s.calculate_totals).avg_sale = (t.calculate_totals).avg_sale ∧
      (s.calculate_totals).card_kiwi_minus_fee = (t.calculate_totals).card_kiwi_minus_fee ∧
      (s.calculate_totals).revenue_total = (t.calculate_totals).revenue_total) := by
  refine ⟨rfl, ?_⟩
  intro h1 h2 h3 h4 h5 h6 h7 h8 h9
  simp [Sales.calculate_totals, h1, h2, h3, h4, h5, h6, h7, h8, h9]

/-- Witness for C9: the spec §8 scenario against a copy whose stored
derived fields hold garbage values. -/
theorem C9_recompute_idempotent_witness :
    (specScenario.calculate_totals).discrepancy
      = (specScenarioJunkDerived.calculate_totals).discrepancy ∧
    (specScenario.calculate_totals).avg_sale
      = (specScenarioJunkDerived.calculate_totals).avg_sale :=
  ⟨((C9_recompute_idempotent specScenario specScenarioJunkDerived).2
      rfl rfl rfl rfl rfl rfl rfl rfl rfl).2.2.1,
   ((C9_recompute_idempotent specScenario specScenarioJunkDerived).2
      rfl rfl rfl rfl rfl rfl rfl rfl rfl).2.2.2.1⟩

/-- C3 counterexample: a creation payload whose `sales_total` is
negative (-1.00) and whose other fields are valid passes the schema
validation and is accepted by `create_sales` — it is not rejected, so
the claim that every negative monetary raw input is rejected is false
for `sales_total` (the schema puts `ge=0` on the other seven monetary
fields but not on `sales_total`). -/
theorem C3_counterexample_negative_sales_total_accepted :
    negCreate.sales_total < 0 ∧
    salesBaseValid negCreate = true ∧
    ((submitCreate dbW negCreate 5).2.toOption).isSome = true ∧
    (submitCreate dbW negCreate 5).1.sales.length = 1 := by decide

/-- C3 amended: a create or update request in which any of the seven
`ge=0`-constrained monetary inputs (card_itpv, card_refund, card_kiwi,
transfer_amt, cash_amt, cash_refund, kiwi_fee_total) — or the payment
count — is negative is rejected with a validation error before any
computation or state change; `sales_total` carries no such bound. -/
theorem C3_amended_nonnegative_inputs_rejected :
    (∀ (db : DBState) (d : SalesCreate) (newId : Nat),
      (d.payments_nbr < 0 ∨ d.card_itpv < 0 ∨ d.card_refund < 0 ∨ d.card_kiwi < 0 ∨
       d.transfer_amt < 0 ∨ d.cash_amt < 0 ∨ d.cash_refund < 0 ∨ d.kiwi_fee_total < 0) →
      submitCreate db d newId = (db, .error .validation)) ∧
    (∀ (db : DBState) (salesId : Nat) (u : SalesUpdate),
      ((∃ v, u.payments_nbr = some v ∧ v < 0) ∨ (∃ v, u.card_itpv = some v ∧ v < 0) ∨
       (∃ v, u.card_refund = some v ∧ v < 0) ∨ (∃ v, u.card_kiwi = some v ∧ v < 0) ∨
       (∃ v, u.transfer_amt = some v ∧ v < 0) ∨ (∃ v, u.cash_amt = some v ∧ v < 0) ∨
       (∃ v, u.cash_refund = some v ∧ v < 0) ∨ (∃ v, u.kiwi_fee_total = some v ∧ v < 0)) →
      submitUpdate db salesId u = (db, .error .validation)) := by
  constructor
  · intro db d newId h
    have hv : salesBaseValid d = false := by
      unfold salesBaseValid
      rcases h with h|h|h|h|h|h|h|h <;> simp [not_le.mpr h]
    unfold submitCreate
    simp [hv]
  · intro db salesId u h
    have hv : salesUpdateValid u = false := by
      unfold salesUpdateValid
      rcases h with ⟨v,he,hneg⟩|⟨v,he,hneg⟩|⟨v,he,hneg⟩|⟨v,he,hneg⟩|⟨v,he,hneg⟩|⟨v,he,hneg⟩|⟨v,he,hneg⟩|⟨v,he,hneg⟩ <;>
        simp [he, Option.all, not_le.mpr hneg]
    unfold submitUpdate
    simp [hv]

/-- Witness for C3 amended: a payload with card_refund = -0.01 is
rejected with a validation error and the store is unchanged. -/
theorem C3_amended_nonnegative_inputs_rejected_witness :
    submitCreate dbW negRefundCreate 5 = (dbW, .error .validation) :=
  C3_amended_nonnegative_inputs_rejected.1 dbW negRefundCreate 5
    (Or.inr (Or.inr (Or.inl (by decide))))

/-- C7 counterexample: under the `date_asc` ordering two records tying
on closure_date come back with closure_number ASCENDING (the code
orders `asc(closure_date), asc(closure_number)`), and under
`sales_desc` the comparator ignores closure_number entirely (neither
of two records tying on sales_total precedes the other), so the claim
that every supported ordering breaks ties by closure_number descending
is false. -/
theorem C7_counterexample_tie_break_not_descending :
    recTieA.closure_date = recTieB.closure_date ∧
    recTieA.closure_number < recTieB.closure_number ∧
    get_sales_records dbTie 0 100 none none none none none none "date_asc"
      = [recTieA, recTieB] ∧
    recTieA.sales_total = recTieB.sales_total ∧
    sales_before "sales_desc" recTieA recTieB = false ∧
    sales_before "sales_desc" recTieB recTieA = false := by decide

/-- C7 amended: the five supported orderings are date descending (the
default; ties on date broken by closure_number DESCENDING), date
ascending (ties broken by closure_number ASCENDING), amount
descending/ascending (sales_total only, no secondary key), and
discrepancy magnitude descending (no secondary key). -/
theorem C7_amended_ordering_keys (a b : Sales) :
    (a.closure_date = b.closure_date →
      sales_before "date_desc" a b = decide (b.closure_number < a.closure_number) ∧
      sales_before "date_asc" a b = decide (a.closure_number < b.closure_number)) ∧
    sales_before "sales_desc" a b = decide (b.sales_total < a.sales_total) ∧
    sales_before "sales_asc" a b = decide (a.sales_total < b.sales_total) ∧
    sales_before "discrepancy_desc" a b = decide (|b.discrepancy| < |a.discrepancy|) := by
  refine ⟨fun h => ⟨?_, ?_⟩, ?_, ?_, ?_⟩ <;> simp [sales_before]
  · simp [h]
  · simp [h]

/-- Witness for C7 amended, at the two tying records. -/
theorem C7_amended_ordering_keys_witness :
    sales_before "date_desc" recTieA recTieB
      = decide (recTieB.closure_number < recTieA.closure_number) :=
  ((C7_amended_ordering_keys recTieA recTieB).1 (by decide)).1

/-- C10: create and update are atomic with respect to their error
cases — every existence and duplicate check runs before any write, so
an error outcome leaves the store exactly as it was (no record
inserted, no field of the targeted record changed); a conflict error
from create really is justified by an existing matching triple; and a
successful create changes the store only by appending the one new
record. -/
theorem C10_error_paths_atomic :
    (∀ (db : DBState) (d : SalesCreate) (newId : Nat) (e : CrudError),
      (create_sales db d newId).2 = .error e → (create_sales db d newId).1 = db) ∧
    (∀ (db : DBState) (salesId : Nat) (u : SalesUpdate) (e : CrudError),
      (update_sales db salesId u).2 = .error e → (update_sales db salesId u).1 = db) ∧
    (∀ (db : DBState) (d : SalesCreate) (newId : Nat),
      (create_sales db d newId).2 = .error .conflict →
        ∃ s ∈ db.sales, tripleMatchesCreate s d = true) ∧
    (∀ (db : DBState) (d : SalesCreate) (newId : Nat) (r : Sales),
      (create_sales db d newId).2 = .ok r →
        (create_sales db d newId).1.sales = db.sales ++ [r] ∧
        (create_sales db d newId).1.users = db.users ∧
        (create_sales db d newId).1.branches = db.branches) := by
  refine ⟨?_, ?_, ?_, ?_⟩
  · intro db d newId e h
    unfold create_sales at h ⊢
    split_ifs at h ⊢ <;> simp_all
  · intro db salesId u e h
    unfold update_sales at h ⊢
    rcases hf : db.sales.find? (fun s => s.id == salesId) with _ | s0 <;>
      simp only [hf] at h ⊢
    all_goals first
      | rfl
      | (split_ifs at h ⊢ <;> simp_all)
  · intro db d newId h
    unfold create_sales at h
    split_ifs at h with h1 h2 h3 <;> simp_all
  · intro db d newId r h
    unfold create_sales at h ⊢
    split_ifs at h ⊢
    simp_all

/-- Witness for C10: a create against an empty store fails with
worker-not-found and leaves the store untouched; an update of a
missing record fails and leaves the store untouched. -/
theorem C10_error_paths_atomic_witness :
    (create_sales dbEmpty negCreate 5).2 = .error .workerNotFound ∧
    (create_sales dbEmpty negCreate 5).1 = dbEmpty ∧
    (update_sales dbW 99 {}).2 = .error .recordNotFound ∧
    (update_sales dbW 99 {}).1 = dbW :=
  ⟨rfl, C10_error_paths_atomic.1 dbEmpty negCreate 5 .workerNotFound rfl,
   rfl, C10_error_paths_atomic.2.1 dbW 99 {} .recordNotFound rfl⟩

/-- C4: the review state of every record is one of pending, approved,
rejected; a freshly created record is pending; the ordinary update
operation never changes the review state; and the administrative
review update (modelled from the spec, see
`update_sales_review_status`) sets exactly the supplied target state —
no other operation changes it and none is automatic or time-based. -/
theorem C4_review_state_lifecycle :
    (∀ st : ReviewState, st = .pending ∨ st = .approved ∨ st = .rejected) ∧
    (∀ (db : DBState) (d : SalesCreate) (newId : Nat) (r : Sales),
      (create_sales db d newId).2 = .ok r → r.review_state = .pending) ∧
    (∀ (db : DBState) (salesId : Nat) (u : SalesUpdate) (r s0 : Sales),
      db.sales.find? (fun s => s.id == salesId) = some s0 →
      (update_sales db salesId u).2 = .ok r → r.review_state = s0.review_state) ∧
    (∀ (db : DBState) (salesId : Nat) (st : ReviewState) (obs : Option String) (r : Sales),
      (update_sales_review_status db salesId st obs).2 = .ok r → r.review_state = st) := by
  refine ⟨?_, ?_, ?_, ?_⟩
  · intro st
    cases st <;> simp
  · intro db d newId r h
    unfold create_sales at h
    split_ifs at h
    obtain rfl : (mkSales newId d).calculate_totals = r := by simpa using h
    rfl
  · intro db salesId u r s0 hf h
    unfold update_sales at h
    simp only [hf] at h
    split_ifs at h <;>
      (obtain rfl : (applyUpdate s0 u).calculate_totals = r := by simpa using h) <;> rfl
  · intro db salesId st obs r h
    unfold update_sales_review_status at h
    rcases hf : db.sales.find? (fun s => s.id == salesId) with _ | s0 <;>
      simp only [hf] at h
    all_goals first
      | (injection h with h2
         subst h2
         rfl)
      | exact absurd h (by simp)

theorem sameTriple_symm {a b : Sales} (h : sameTriple a b) : sameTriple b a :=
  ⟨h.1.symm, h.2.1.symm, h.2.2.symm⟩

theorem applyUpdate_calc_id (s0 : Sales) (u : SalesUpdate) :
    ((applyUpdate s0 u).calculate_totals).id = s0.id := rfl

theorem applyUpdate_calc_closure_date (s0 : Sales) (u : SalesUpdate) :
    ((applyUpdate s0 u).calculate_totals).closure_date
      = u.closure_date.getD s0.closure_date := rfl

theorem applyUpdate_calc_closure_number (s0 : Sales) (u : SalesUpdate) :
    ((applyUpdate s0 u).calculate_totals).closure_number
      = u.closure_number.getD s0.closure_number := rfl

theorem applyUpdate_calc_branch_id (s0 : Sales) (u : SalesUpdate) :
    ((applyUpdate s0 u).calculate_totals).branch_id
      = u.branch_id.getD s0.branch_id := rfl

theorem stateInv_pairs {l : List Sales} (hinv : StateInv l) :
    ∀ {a b : Sales}, a ∈ l → b ∈ l → a ≠ b → ¬ sameTriple a b ∧ a.id ≠ b.id := by
  unfold StateInv at hinv
  induction l with
  | nil => intro a b ha _ _; cases ha
  | cons x t ih =>
    intro a b ha hb hne
    rcases List.pairwise_cons.mp hinv with ⟨hx, ht⟩
    rcases List.mem_cons.mp ha with rfl | ha' <;> rcases List.mem_cons.mp hb with rfl | hb'
    · exact absurd rfl hne
    · exact hx b hb'
    · have h := hx a ha'
      exact ⟨fun hs => h.1 (sameTriple_symm hs), fun hid => h.2 hid.symm⟩
    · exact ih ht ha' hb' hne

theorem stateInv_map_replace {l : List Sales} {sid : Nat} {rec : Sales}
    (hinv : StateInv l) (hid : rec.id = sid)
    (hsafe : ∀ b ∈ l, b.id ≠ sid → ¬ sameTriple rec b) :
    StateInv (l.map (fun s => if s.id == sid then rec else s)) := by
  unfold StateInv at hinv ⊢
  rw [List.pairwise_map]
  refine hinv.imp_of_mem ?_
  intro a b ha hb hab
  by_cases hA : a.id = sid <;> by_cases hB : b.id = sid
  · exact absurd (hA.trans hB.symm) hab.2
  · simp only [hA, hB, beq_self_eq_true, if_pos, if_neg, beq_iff_eq]
    refine ⟨hsafe b hb hB, ?_⟩
    rw [hid]
    exact fun h => hB h.symm
  · simp only [hA, hB, beq_self_eq_true, if_pos, if_neg, beq_iff_eq]
    refine ⟨fun hs => hsafe a ha hA (sameTriple_symm hs), ?_⟩
    rw [hid]
    exact fun h => hA h
  · simp only [hA, hB, if_neg, beq_iff_eq]
    exact hab

theorem create_sales_success_state {db : DBState} {d : SalesCreate} {newId : Nat}
    (hw : db.users.any (fun p => p.1 == d.worker_id) = true)
    (hb : db.branches.any (fun p => p.1 == d.branch_id) = true)
    (hdup : db.sales.any (fun s => tripleMatchesCreate s d) = false) :
    create_sales db d newId =
      ({ db with sales := db.sales ++ [(mkSales newId d).calculate_totals] },
        .ok ((mkSales newId d).calculate_totals)) := by
  unfold create_sales
  rw [if_neg (by simp [hw]), if_neg (by simp [hb]), if_neg (by simp [hdup])]

theorem create_sales_conflict {db : DBState} {d : SalesCreate} {newId : Nat}
    (hw : db.users.any (fun p => p.1 == d.worker_id) = true)
    (hb : db.branches.any (fun p => p.1 == d.branch_id) = true)
    (hdup : ∃ s ∈ db.sales, tripleMatchesCreate s d = true) :
    create_sales db d newId = (db, .error .conflict) := by
  unfold create_sales
  rw [if_neg (by simp [hw]), if_neg (by simp [hb]),
    if_pos (List.any_eq_true.mpr (by simpa using hdup))]


/-- C2: the duplicate-triple checks of `create_sales` and
`update_sales` maintain the invariant that no two persisted records
share (closure_date, closure_number, branch_id): a successful create
or update preserves the invariant; a create whose triple matches an
existing record is rejected with a 409 conflict, as is an update whose
resulting triple matches a different existing record; and of two
sequential creates with the same triple the first succeeds and the
second gets the conflict. -/
theorem C2_triple_uniqueness :
    (∀ (db : DBState) (d : SalesCreate) (newId : Nat) (r : Sales),
      StateInv db.sales → (∀ s ∈ db.sales, s.id ≠ newId) →
      (create_sales db d newId).2 = .ok r →
      StateInv (create_sales db d newId).1.sales) ∧
    (∀ (db : DBState) (salesId : Nat) (u : SalesUpdate) (r : Sales),
      StateInv db.sales →
      (update_sales db salesId u).2 = .ok r →
      StateInv (update_sales db salesId u).1.sales) ∧
    (∀ (db : DBState) (d : SalesCreate) (newId : Nat),
      db.users.any (fun p => p.1 == d.worker_id) = true →
      db.branches.any (fun p => p.1 == d.branch_id) = true →
      (∃ s ∈ db.sales, tripleMatchesCreate s d = true) →
      (create_sales db d newId).2 = .error .conflict) ∧
    (∀ (db : DBState) (salesId : Nat) (u : SalesUpdate) (s0 s2 : Sales),
      db.sales.find? (fun s => s.id == salesId) = some s0 →
      (u.worker_id.all fun w => db.users.any (fun p => p.1 == w)) = true →
      (u.branch_id.all fun b => db.branches.any (fun p => p.1 == b)) = true →
      (u.closure_number.isSome || u.closure_date.isSome || u.branch_id.isSome) = true →
      s2 ∈ db.sales → s2.id ≠ salesId →
      s2.closure_date = u.closure_date.getD s0.closure_date →
      s2.closure_number = u.closure_number.getD s0.closure_number →
      s2.branch_id = u.branch_id.getD s0.branch_id →
      (update_sales db salesId u).2 = .error .conflict) ∧
    (∀ (db : DBState) (d1 d2 : SalesCreate) (id1 id2 : Nat),
      db.users.any (fun p => p.1 == d1.worker_id) = true →
      db.branches.any (fun p => p.1 == d1.branch_id) = true →
      db.users.any (fun p => p.1 == d2.worker_id) = true →
      db.branches.any (fun p => p.1 == d2.branch_id) = true →
      d2.closure_date = d1.closure_date →
      d2.closure_number = d1.closure_number →
      d2.branch_id = d1.branch_id →
      (∀ s ∈ db.sales, tripleMatchesCreate s d1 = false) →
      (∃ r, (create_sales db d1 id1).2 = .ok r) ∧
      (create_sales (create_sales db d1 id1).1 d2 id2).2 = .error .conflict) := by
  refine ⟨?_, ?_, ?_, ?_, ?_⟩
  · intro db d newId r hinv hfresh hok
    unfold create_sales at hok ⊢
    split_ifs at hok ⊢ with h1 h2 h3
    all_goals simp at hok
    unfold StateInv
    rw [List.pairwise_append]
    refine ⟨hinv, List.pairwise_singleton _ _, ?_⟩
    intro a ha b hb
    rw [List.mem_singleton] at hb
    subst hb
    constructor
    · intro hs
      refine h3 (List.any_eq_true.mpr ⟨a, ha, ?_⟩)
      simp only [tripleMatchesCreate, Bool.and_eq_true, beq_iff_eq]
      exact ⟨⟨hs.1, hs.2.1⟩, hs.2.2⟩
    · intro hid
      exact hfresh a ha hid
  · intro db salesId u r hinv hok
    unfold update_sales at hok ⊢
    rcases hf : db.sales.find? (fun s => s.id == salesId) with _ | s0 <;>
      simp only [hf] at hok ⊢
    · exact absurd hok (by simp)
    · have hs0mem : s0 ∈ db.sales := List.mem_of_find?_eq_some hf
      have hs0id : s0.id = salesId := by simpa using List.find?_some hf
      split_ifs at hok ⊢ with hw hbk hguard hconf
      all_goals simp at hok
      · apply @stateInv_map_replace db.sales salesId
          ((applyUpdate s0 u).calculate_totals) hinv hs0id
        intro b hbmem hbid hs
        refine absurd (List.any_eq_true.mpr ⟨b, hbmem, ?_⟩) hconf
        simp only [Bool.and_eq_true, beq_iff_eq, bne_iff_ne, ne_eq]
        exact ⟨⟨⟨hs.1.symm, hs.2.1.symm⟩, hs.2.2.symm⟩, hbid⟩
      · rcases hc1 : u.closure_number with _ | v1 <;>
          rcases hc2 : u.closure_date with _ | v2 <;>
          rcases hc3 : u.branch_id with _ | v3 <;>
          simp [hc1, hc2, hc3] at hguard
        apply @stateInv_map_replace db.sales salesId
          ((applyUpdate s0 u).calculate_totals) hinv hs0id
        intro b hbmem hbid hs
        have hne : s0 ≠ b := fun he => hbid (he ▸ hs0id)
        have hpair := stateInv_pairs hinv hs0mem hbmem hne
        apply hpair.1
        refine ⟨?_, ?_, ?_⟩
        · rw [show s0.closure_date
              = ((applyUpdate s0 u).calculate_totals).closure_date from by
            rw [applyUpdate_calc_closure_date, hc2, Option.getD_none]]
          exact hs.1
        · rw [show s0.closure_number
              = ((applyUpdate s0 u).calculate_totals).closure_number from by
            rw [applyUpdate_calc_closure_number, hc1, Option.getD_none]]
          exact hs.2.1
        · rw [show s0.branch_id
              = ((applyUpdate s0 u).calculate_totals).branch_id from by
            rw [applyUpdate_calc_branch_id, hc3, Option.getD_none]]
          exact hs.2.2
  · intro db d newId hw hb hdup
    rw [create_sales_conflict hw hb hdup]
  · intro db salesId u s0 s2 hf hw hbk hguard hmem hsid h1 h2 h3
    have hany : (db.sales.any fun s =>
        s.closure_date == u.closure_date.getD s0.closure_date &&
        s.closure_number == u.closure_number.getD s0.closure_number &&
        s.branch_id == u.branch_id.getD s0.branch_id &&
        s.id != salesId) = true := by
      refine List.any_eq_true.mpr ⟨s2, hmem, ?_⟩
      simp only [Bool.and_eq_true, beq_iff_eq, bne_iff_ne, ne_eq]
      exact ⟨⟨⟨h1, h2⟩, h3⟩, hsid⟩
    unfold update_sales
    simp only [hf]
    split_ifs
    rfl
  · intro db d1 d2 id1 id2 hw1 hb1 hw2 hb2 ht1 ht2 ht3 hnone
    have hanyf : db.sales.any (fun s => tripleMatchesCreate s d1) = false := by
      rw [List.any_eq_false]
      intro s hs
      simp [hnone s hs]
    have hstep := @create_sales_success_state db d1 id1 hw1 hb1 hanyf
    constructor
    · exact ⟨(mkSales id1 d1).calculate_totals, by rw [hstep]⟩
    · rw [hstep]
      show (create_sales
          { db with sales := db.sales ++ [(mkSales id1 d1).calculate_totals] } d2 id2).2
        = .error .conflict
      rw [create_sales_conflict
        (show ({ db with sales := db.sales ++ [(mkSales id1 d1).calculate_totals]
          } : DBState).users.any (fun p => p.1 == d2.worker_id) = true from hw2)
        (show ({ db with sales := db.sales ++ [(mkSales id1 d1).calculate_totals]
          } : DBState).branches.any (fun p => p.1 == d2.branch_id) = true from hb2)
        ⟨(mkSales id1 d1).calculate_totals, by simp, by
          simp only [tripleMatchesCreate, Bool.and_eq_true, beq_iff_eq]
          exact ⟨⟨ht1.symm, ht2.symm⟩, ht3.symm⟩⟩]

/-- Witness for C2: against a store with worker 1 and branch 1 and no
sales, two sequential creates with the same (0, 1, 1) triple — the
first succeeds, the second gets a 409 conflict. -/
theorem C2_triple_uniqueness_witness :
    (∃ r, (create_sales dbW dupCreate 7).2 = .ok r) ∧
    (create_sales (create_sales dbW dupCreate 7).1 dupCreate 8).2 = .error .conflict :=
  C2_triple_uniqueness.2.2.2.2 dbW dupCreate dupCreate 7 8 (by decide) (by decide)
    (by decide) (by decide) rfl rfl rfl (by decide)

theorem sum_map_ite_mem {names : List String} {n0 : String} (c : Int) (g : String → Int)
    (hnd : names.Nodup) (hmem : n0 ∈ names) :
    (names.map (fun n => if n = n0 then c + g n else g n)).sum = c + (names.map g).sum := by
  induction names with
  | nil => cases hmem
  | cons m rest ih =>
    rcases List.nodup_cons.mp hnd with ⟨hm, hndr⟩
    rcases List.mem_cons.mp hmem with rfl | hmem2
    · simp only [List.map_cons, List.sum_cons, if_pos rfl]
      have hrest : rest.map (fun n => if n = n0 then c + g n else g n) = rest.map g := by
        refine List.map_congr_left ?_
        intro a ha
        rw [if_neg]
        exact fun he => hm (he ▸ ha)
      rw [hrest]
      simp only [if_true]
      ring
    · have hm0 : m ≠ n0 := fun he => hm (he ▸ hmem2)
      simp only [List.map_cons, List.sum_cons, if_neg hm0]
      rw [ih hndr hmem2]
      ring

theorem groupedTotals_sum {f : Sales → Option String} {names : List String}
    (hnd : names.Nodup) :
    ∀ l : List Sales, (∀ s ∈ l, ∃ n ∈ names, f s = some n) →
      (names.map (fun n => groupTotal f l n)).sum = (l.map Sales.sales_total).sum := by
  intro l
  induction l with
  | nil =>
    intro _
    simp [groupTotal]
  | cons x t ih =>
    intro hcov
    obtain ⟨n0, hn0, hfx⟩ := hcov x (List.mem_cons_self x t)
    have ht : ∀ s ∈ t, ∃ n ∈ names, f s = some n :=
      fun s hs => hcov s (List.mem_cons_of_mem x hs)
    have hstep : ∀ n, groupTotal f (x :: t) n
        = if n = n0 then x.sales_total + groupTotal f t n else groupTotal f t n := by
      intro n
      unfold groupTotal
      rw [List.filter_cons]
      by_cases he : n = n0
      · subst he
        rw [if_pos (by simp [hfx]), if_pos rfl]
        simp
      · rw [if_neg (by simp [hfx]; exact fun h2 => he h2.symm), if_neg he]
    calc (names.map (fun n => groupTotal f (x :: t) n)).sum
        = (names.map (fun n =>
            if n = n0 then x.sales_total + groupTotal f t n else groupTotal f t n)).sum := by
          rw [List.map_congr_left (fun n _ => hstep n)]
      _ = x.sales_total + (names.map (fun n => groupTotal f t n)).sum :=
          sum_map_ite_mem x.sales_total (fun n => groupTotal f t n) hnd hn0
      _ = x.sales_total + (t.map Sales.sales_total).sum := by rw [ih ht]
      _ = ((x :: t).map Sales.sales_total).sum := by simp

/-- C8: for a period report over a date range with no branch filter,
the per-branch totals of the `by_branch` breakdown sum exactly to the
`total_sales` of the report's summary, provided every record of the
period joins to an existing branch row (the inner join would silently
drop an orphaned record). -/
theorem C8_by_branch_partitions_total (db : DBState) (a b : Int)
    (h : ∀ s ∈ periodRecords db a b none none, (resolvedBranchName db s).isSome) :
    ((get_sales_period_report db a b none).by_branch.map Prod.snd).sum
      = (get_sales_period_report db a b none).summary.total_sales := by
  show ((groupedTotals (resolvedBranchName db)
      (periodRecords db a b none none)).map Prod.snd).sum
    = ((periodRecords db a b none none).map Sales.sales_total).sum
  unfold groupedTotals
  rw [List.map_map]
  have hcomp : (Prod.snd ∘ fun n =>
      (n, groupTotal (resolvedBranchName db) (periodRecords db a b none none) n))
      = fun n => groupTotal (resolvedBranchName db) (periodRecords db a b none none) n := rfl
  rw [hcomp]
  refine groupedTotals_sum (List.nodup_dedup _) (periodRecords db a b none none) ?_
  intro s hs
  obtain ⟨n, hn⟩ := Option.isSome_iff_exists.mp (h s hs)
  exact ⟨n, List.mem_dedup.mpr (List.mem_filterMap.mpr ⟨s, hs, hn⟩), hn⟩

/-- Witness for C8 at a concrete store with two branches and three
records (1.00 + 2.00 at branch 1, 3.00 at branch 2). -/
theorem C8_by_branch_partitions_total_witness :
    ((get_sales_period_report dbC8 0 10 none).by_branch.map Prod.snd).sum
      = (get_sales_period_report dbC8 0 10 none).summary.total_sales :=
  C8_by_branch_partitions_total dbC8 0 10 (by decide)

/-- Witness for C4: a concrete create yields a pending record, and a
concrete review update sets exactly the supplied state. -/
theorem C4_review_state_lifecycle_witness :
    (create_sales dbW dupCreate 5).2 = .ok ((mkSales 5 dupCreate).calculate_totals) ∧
    ((mkSales 5 dupCreate).calculate_totals).review_state = .pending ∧
    (update_sales_review_status dbDup 0 .approved (some "ok")).2
      = .ok { baseRec with review_state := .approved, review_observations := some "ok" } ∧
    ({ baseRec with
        review_state := .approved
        review_observations := some "ok" } : Sales).review_state = .approved :=
  ⟨rfl,
   C4_review_state_lifecycle.2.1 dbW dupCreate 5 ((mkSales 5 dupCreate).calculate_totals) rfl,
   rfl,
   C4_review_state_lifecycle.2.2.2 dbDup 0 .approved (some "ok")
     { baseRec with review_state := .approved, review_observations := some "ok" } rfl⟩
